import Mathlib

/-!
Shallow embedding of the ethicalmousetrap dashboard (TypeScript / Next.js).

Source files embedded here:
* `src/app/api/detect/route.ts`    — detect relay: tries ports [5001, 5000, 5002, 8000].
* `src/app/api/health/route.ts`    — liveness check against port 5000.
* `src/app/api/detection/route.ts` — in-memory detection-status slot with GET/POST.
* `src/app/page.tsx`               — trap state store, click toggle, status counts,
                                     detection trigger client.
* `src/unnamed/part_002`           — older four-value cyclic click scheme.

JavaScript values flowing through these routes are modelled by `JsValue`
(JSON objects, strings, integers, booleans, null; arrays are omitted since no
route inspects an array). `JSON.parse` and `response.json()` are platform
functions, so route logic is parameterised by an abstract
`parse : String → Option JsValue` (`none` models a parse exception).
`fetch` outcomes are modelled by `FetchOutcome`: either a thrown `JsError`
(with the `code` / `message` fields the route inspects) or an `HttpResponse`.
-/

namespace EthicalMousetrap

/-- Model of the JavaScript values the routes inspect: JSON atoms and objects.
Numbers are modelled as integers (no route does non-integral arithmetic);
arrays are omitted because no route reads one. -/
inductive JsValue where
  | null : JsValue
  | bool (b : Bool) : JsValue
  | num (n : Int) : JsValue
  | str (s : String) : JsValue
  | obj (fields : List (String × JsValue)) : JsValue

/-- Property access `v.name`: `none` models JavaScript `undefined`
(missing field, or access on a non-object). -/
def JsValue.getField : JsValue → String → Option JsValue
  | .obj fields, name => (fields.find? (fun p => p.1 = name)).map Prod.snd
  | _, _ => none

/-- JavaScript truthiness of a defined value: `false`, `0`, `""` and `null`
are falsy; objects are truthy. -/
def truthy : JsValue → Bool
  | .null => false
  | .bool b => b
  | .num n => n != 0
  | .str s => s != ""
  | .obj _ => true

/-- JavaScript `x || d` on a possibly-undefined `x`: the default is taken
when `x` is `undefined` (`none`) or falsy. -/
def jsOr (v : Option JsValue) (dflt : JsValue) : JsValue :=
  match v with
  | some x => if truthy x then x else dflt
  | none => dflt

/-- JavaScript strict equality `v === s` of a possibly-undefined value
against a string literal: only a string with the same contents compares equal. -/
def isStrEq (v : Option JsValue) (s : String) : Bool :=
  match v with
  | some (.str t) => t == s
  | _ => false

/-- JavaScript `s || d` on strings: the empty string is falsy. -/
def strOr (s d : String) : String :=
  if s = "" then d else s

/-- Test that `needle` matches at the head of `hay` (helper for
`strIncludes`). -/
def leadMatches : List Char → List Char → Bool
  | [], _ => true
  | _ :: _, [] => false
  | a :: as, b :: bs => a == b && leadMatches as bs

/-- Test that `needle` occurs contiguously somewhere in `hay`. -/
def occursIn (needle hay : List Char) : Bool :=
  match hay with
  | [] => leadMatches needle []
  | _ :: t => leadMatches needle hay || occursIn needle t

/-- JavaScript `s.includes(sub)`: substring containment. -/
def strIncludes (s sub : String) : Bool :=
  occursIn sub.data s.data

/-- JavaScript `s.trim()`: strip leading and trailing whitespace. -/
def strTrim (s : String) : String :=
  ⟨((s.data.dropWhile Char.isWhitespace).reverse.dropWhile Char.isWhitespace).reverse⟩

/-- JavaScript `s.substring(0, n)`: the first `n` characters. -/
def strTake (s : String) (n : Nat) : String :=
  ⟨s.data.take n⟩

/-- JavaScript string conversion as used by template literals, for the value
shapes of `JsValue`. -/
def jsDisplay : JsValue → String
  | .null => "null"
  | .bool b => if b then "true" else "false"
  | .num n => toString n
  | .str s => s
  | .obj _ => "[object Object]"

/-- The fields of a thrown JavaScript error that the routes inspect:
`error.code` (may be absent) and `error.message`. -/
structure JsError where
  code : Option String
  message : String

/-- The error `fetch` rejects with (Node/undici) when the TCP connection is
refused: a `TypeError` whose message is "fetch failed" (the `ECONNREFUSED`
cause is nested, so `error.code` is undefined). -/
def fetchFailedError : JsError := ⟨none, "fetch failed"⟩

/-- An error carrying `code === 'ECONNREFUSED'` directly, as some HTTP clients
raise it. -/
def connRefusedCodeError : JsError := ⟨some "ECONNREFUSED", "connect ECONNREFUSED 127.0.0.1:5000"⟩

/-- Models the platform behaviour when the route's `setTimeout` fires and
`controller.abort()` aborts the fetch: the fetch promise rejects with the
default `DOMException` named `AbortError`, whose message is
"This operation was aborted" and which has no string `code` property. -/
def abortedError : JsError := ⟨none, "This operation was aborted"⟩

/-- What the route sees of an HTTP response: `response.ok`, `response.status`,
and the body text from `response.text()`. -/
structure HttpResponse where
  ok : Bool
  status : Nat
  body : String

/-- Outcome of one `await fetch(...)` plus `response.text()`: either a thrown
error or a response. -/
inductive FetchOutcome where
  | failure (e : JsError) : FetchOutcome
  | success (r : HttpResponse) : FetchOutcome

/-- A `NextResponse.json(body, { status })` reply: the JSON body and the HTTP
status code (200 when no status is given). -/
structure RouteReply where
  body : JsValue
  status : Nat

/-! ## Detect relay — `src/app/api/detect/route.ts`

```ts
export async function POST() {
  const ports = [5001, 5000, 5002, 8000]
  for (const port of ports) {
    try {
      ... fetch ... const text = await response.text()
      if (!text || text.trim().length === 0) { continue }
      let data
      try { data = JSON.parse(text) } catch (parseError) { continue }
      if (!response.ok) {
        return NextResponse.json(
          { error: data.error || 'Detection failed', status: data.status || 'error' },
          { status: response.status })
      }
      return NextResponse.json(data)
    } catch (error: any) {
      if (error.code === 'ECONNREFUSED' || error.message?.includes('fetch failed')) { continue }
      console.error(...); continue
    }
  }
  return NextResponse.json({ error: '...', status: 'error' }, { status: 503 })
}
```
-/

/-- Candidate ports tried in order by the detect relay. -/
def detectPorts : List Nat := [5001, 5000, 5002, 8000]

/-- The detect route's catch-clause test
`error.code === 'ECONNREFUSED' || error.message?.includes('fetch failed')`. -/
def isDetectConnFailure (e : JsError) : Bool :=
  e.code == some "ECONNREFUSED" || strIncludes e.message "fetch failed"

/-- One iteration of the detect route's port loop. `some reply` means the
route returns `reply` from inside the loop; `none` means `continue` (thrown
error of any kind, empty/whitespace body, or unparseable body). -/
def detectTryPort (parse : String → Option JsValue) (o : FetchOutcome) : Option RouteReply :=
  match o with
  | .failure e =>
      -- connection errors `continue`; other errors are logged and also `continue`
      if isDetectConnFailure e then none else none
  | .success r =>
      if (strTrim r.body).length = 0 then none
      else
        match parse r.body with
        | none => none
        | some data =>
            if r.ok then some ⟨data, 200⟩
            else some ⟨.obj [("error", jsOr (data.getField "error") (.str "Detection failed")),
                             ("status", jsOr (data.getField "status") (.str "error"))],
                       r.status⟩

/-- The port loop over a list of remaining candidate ports, also recording the
trace of ports actually attempted. The `oracle` gives each port's fetch
outcome. Returns `(some reply, attempted)` when some port answered
terminally, `(none, attempted)` when every port was exhausted. -/
def detectLoop (parse : String → Option JsValue) (oracle : Nat → FetchOutcome) :
    List Nat → Option RouteReply × List Nat
  | [] => (none, [])
  | p :: rest =>
      match detectTryPort parse (oracle p) with
      | some reply => (some reply, [p])
      | none =>
          let (res, tr) := detectLoop parse oracle rest
          (res, p :: tr)

/-- The error message returned when every candidate port failed. -/
def detectFailMsg : String :=
  "Detector service is not running on any port (5001, 5000, 5002, 8000). Make sure mouse_detector.py is running."

/-- The whole detect `POST` handler: run the loop over `detectPorts`; if it
falls through, return the 503 all-ports-failed reply. -/
def detectPOST (parse : String → Option JsValue) (oracle : Nat → FetchOutcome) : RouteReply :=
  match (detectLoop parse oracle detectPorts).1 with
  | some reply => reply
  | none => ⟨.obj [("error", .str detectFailMsg), ("status", .str "error")], 503⟩

/-- The ports the detect handler actually attempts, in order. -/
def detectAttempts (parse : String → Option JsValue) (oracle : Nat → FetchOutcome) : List Nat :=
  (detectLoop parse oracle detectPorts).2

/-! ## Liveness check — `src/app/api/health/route.ts`

One fetch to `http://localhost:5000/health` with a 5-second abort timer, then:
empty body → 503 error reply; unparseable body → 503 error reply with a
100-character snippet; parseable body → 200 ok reply with the payload under
`detector`; thrown connection error → fixed 503 message; any other thrown
error → 503 with the error's own message (or a fallback). -/

/-- The health route's catch-clause connection test:
`error.code === 'ECONNREFUSED' || error.message?.includes('fetch failed')
 || error.message?.includes('ECONNREFUSED')`. -/
def isHealthConnFailure (e : JsError) : Bool :=
  e.code == some "ECONNREFUSED" || strIncludes e.message "fetch failed"
    || strIncludes e.message "ECONNREFUSED"

/-- Fixed message of the health route's connection-refused reply. -/
def healthConnRefusedMsg : String :=
  "Detector service is not running. Make sure mouse_detector.py is running on port 5000."

/-- Message of the health route's empty-body reply. -/
def healthEmptyMsg : String := "Empty response from detector service"

/-- The health route's normalized failure reply shape:
`{ status: 'error', message, running: false }` with HTTP status 503. -/
def healthErrorReply (msg : String) : RouteReply :=
  ⟨.obj [("status", .str "error"), ("message", .str msg), ("running", .bool false)], 503⟩

/-- The health route's success reply shape:
`{ status: 'ok', detector: data, running: true }` with HTTP status 200. -/
def healthOkReply (data : JsValue) : RouteReply :=
  ⟨.obj [("status", .str "ok"), ("detector", data), ("running", .bool true)], 200⟩

/-- The health `GET` handler over the outcome of its single fetch. -/
def healthGET (parse : String → Option JsValue) (o : FetchOutcome) : RouteReply :=
  match o with
  | .success r =>
      if (strTrim r.body).length = 0 then healthErrorReply healthEmptyMsg
      else
        match parse r.body with
        | none => healthErrorReply ("Invalid response: " ++ strTake r.body 100)
        | some data => healthOkReply data
  | .failure e =>
      if isHealthConnFailure e then healthErrorReply healthConnRefusedMsg
      else healthErrorReply (strOr e.message "Failed to connect to detector service")

/-! ## Detection-status slot — `src/app/api/detection/route.ts`

A module-level mutable record
`{ detected: false, timestamp: Date.now(), room: 'kitchen' }`; `GET` returns
it; `POST` parses the request body and overwrites it, returning 400
`{ success: false, error: 'Invalid request' }` when parsing throws. -/

/-- The in-memory detection-status slot. `detected` and `room` hold whatever
JavaScript values the last `POST` body supplied (after `|| false` and
`|| 'kitchen'` defaulting); `timestamp` is a `Date.now()` clock reading. -/
structure DetectionState where
  detected : JsValue
  timestamp : Int
  room : JsValue

/-- The slot's initial value at module load, `t0` being the `Date.now()`
reading taken then. -/
def initialDetectionState (t0 : Int) : DetectionState :=
  ⟨.bool false, t0, .str "kitchen"⟩

/-- JSON rendering of the slot, as `NextResponse.json` serializes it. -/
def DetectionState.toJson (st : DetectionState) : JsValue :=
  .obj [("detected", st.detected), ("timestamp", .num st.timestamp), ("room", st.room)]

/-- The detection-status `GET` handler. -/
def detectionGET (st : DetectionState) : RouteReply :=
  ⟨st.toJson, 200⟩

/-- The detection-status `POST` handler. `bodyJson = none` models
`request.json()` throwing (unparseable body); `now` is the server's
`Date.now()` reading. Returns the new slot value and the reply. -/
def detectionPOST (st : DetectionState) (now : Int) (bodyJson : Option JsValue) :
    DetectionState × RouteReply :=
  match bodyJson with
  | none => (st, ⟨.obj [("success", .bool false), ("error", .str "Invalid request")], 400⟩)
  | some body =>
      let st2 : DetectionState :=
        ⟨jsOr (body.getField "detected") (.bool false), now,
         jsOr (body.getField "room") (.str "kitchen")⟩
      (st2, ⟨.obj [("success", .bool true), ("state", st2.toJson)], 200⟩)

/-! ## Trap registry and state store — `src/app/page.tsx`

`trapStates` is a JavaScript object mapping room ids to status strings,
initialized with kitchen / livingRoom / bedroom all `'inactive'`. Clicking a
trap runs
`const newState = trapStates[room] === 'inactive' ? 'active' : 'inactive'`
followed by `setTrapStates({ ...trapStates, [room]: newState })`.
The object is modelled as an association list with unique keys in insertion
order, matching JavaScript object-spread semantics: an existing key keeps its
position and gets the new value, a new key is appended. -/

/-- A registered trap: id, display name, overlay position (percentages). -/
structure Trap where
  id : String
  name : String
  position : Nat × Nat

/-- The fixed trap registry (the `traps` array in `page.tsx`). -/
def traps : List Trap :=
  [⟨"kitchen", "Kitchen", (70, 80)⟩,
   ⟨"livingRoom", "Living Room", (25, 30)⟩,
   ⟨"bedroom", "Bedroom", (75, 25)⟩]

/-- A JavaScript string-keyed object as an association list (unique keys,
insertion order). -/
abbrev TrapStates := List (String × String)

/-- Property read `st[room]`: `none` models `undefined`. -/
def lookupState (st : TrapStates) (k : String) : Option String :=
  (st.find? (fun p => p.1 = k)).map Prod.snd

/-- Object spread update `{ ...st, [k]: v }`: an existing key is overwritten
in place, a fresh key is appended. -/
def setKey (st : TrapStates) (k v : String) : TrapStates :=
  if st.any (fun p => p.1 = k) then
    st.map (fun p => if p.1 = k then (k, v) else p)
  else
    st ++ [(k, v)]

/-- The initial `useState` value: all three rooms `'inactive'`. -/
def initialTrapStates : TrapStates :=
  [("kitchen", "inactive"), ("livingRoom", "inactive"), ("bedroom", "inactive")]

/-- The two-value transition applied to a defined status:
`s === 'inactive' ? 'active' : 'inactive'`. -/
def nextBinaryStatus (s : String) : String :=
  if s = "inactive" then "active" else "inactive"

/-- The click handler's state update: toggle the clicked room via the
two-value rule (an `undefined` read compares unequal to `'inactive'`, so an
unknown room gets `'inactive'`) and spread it back into the object. -/
def handleTrapClick (st : TrapStates) (room : String) : TrapStates :=
  let newState :=
    match lookupState st room with
    | some s => nextBinaryStatus s
    | none => "inactive"
  setKey st room newState

/-- One step of `getStatusCounts`: increment the `inactive` or `active`
tally for one entry, ignoring any other value (the handler's
`if (state === 'inactive' || state === 'active') counts[state]++`). -/
def countStep (c : Nat × Nat) (p : String × String) : Nat × Nat :=
  if p.2 = "inactive" then (c.1 + 1, c.2)
  else if p.2 = "active" then (c.1, c.2 + 1)
  else c

/-- `getStatusCounts`: fold over `Object.values(trapStates)`, tallying
entries per status. Returned as `(inactive, active)`. -/
def getStatusCounts (st : TrapStates) : Nat × Nat :=
  st.foldl countStep (0, 0)

/-- A sequence of clicks applied in order. -/
def applyClicks (st : TrapStates) (rooms : List String) : TrapStates :=
  rooms.foldl handleTrapClick st

/-! ## Detection trigger client — `src/app/page.tsx`, `triggerDetection`

```ts
setIsDetecting(true); setDetectionResult(null)
try {
  const response = await fetch('/api/detect', { method: 'POST', ... })
  const data = await response.json()
  if (data.status === 'success') { setDetectionResult(data.result); ... }
  else { setDetectionResult(`Error: ${data.error || 'Unknown error'}`) }
} catch (error) {
  setDetectionResult('Error: Failed to connect to detector service')
} finally { setIsDetecting(false) }
```
-/

/-- The client state the trigger mutates: the busy flag and the last
detection result (`none` models `null`/`undefined`). -/
structure ClientState where
  isDetecting : Bool
  detectionResult : Option JsValue

/-- Outcome of `fetch('/api/detect')` + `response.json()` as the client sees
it: `threw` models a network error or a JSON-parse failure, `parsed data`
a decoded body. -/
inductive TriggerOutcome where
  | threw : TriggerOutcome
  | parsed (data : JsValue) : TriggerOutcome

/-- The state set synchronously at the top of `triggerDetection`:
busy flag on, previous result cleared. -/
def triggerInFlight : ClientState := ⟨true, none⟩

/-- The state after the response (or error) is handled; the `finally` block
clears the busy flag on every path. -/
def triggerSettle (o : TriggerOutcome) : ClientState :=
  match o with
  | .threw => ⟨false, some (.str "Error: Failed to connect to detector service")⟩
  | .parsed data =>
      if isStrEq (data.getField "status") "success" then
        ⟨false, data.getField "result"⟩
      else
        ⟨false, some (.str ("Error: " ++ jsDisplay (jsOr (data.getField "error") (.str "Unknown error"))))⟩

/-- One full run of `triggerDetection`: the in-flight state it enters first,
and the state it settles in. -/
def triggerDetection (o : TriggerOutcome) : ClientState × ClientState :=
  (triggerInFlight, triggerSettle o)

/-! ## Four-value cyclic scheme — `src/unnamed/part_002`

```ts
const colors = ['default', 'green', 'yellow', 'red']
const currentIndex = colors.indexOf(trapStates[room])
const nextIndex = (currentIndex + 1) % colors.length
```
`Array.prototype.indexOf` yields `-1` on a miss, so the integer arithmetic is
kept (`(-1 + 1) % 4 = 0`). -/

/-- The ordered four-value status sequence. -/
def colors : List String := ["default", "green", "yellow", "red"]

/-- The four-value cyclic transition from `part_002`'s click handler. -/
def nextColor (s : String) : String :=
  let currentIndex : Int :=
    match colors.findIdx? (fun c => c = s) with
    | some i => (i : Int)
    | none => -1
  let nextIndex := (currentIndex + 1) % (colors.length : Int)
  colors.getD nextIndex.toNat "default"

/-- A tiny concrete stand-in for `JSON.parse`, used to instantiate the
abstract `parse` parameter on closed inputs: it recognises two fixed body
texts. -/
def demoParse : String → Option JsValue
  | "\x7b\"status\":\"success\",\"result\":\"No mouse detected\",\"detected\":false\x7d" =>
      some (.obj [("status", .str "success"), ("result", .str "No mouse detected"),
                  ("detected", .bool false)])
  | "\x7b\"status\":\"error\",\"error\":\"camera busy\"\x7d" =>
      some (.obj [("status", .str "error"), ("error", .str "camera busy")])
  | _ => none

/-- The success body text `demoParse` recognises. -/
def demoSuccessBody : String :=
  "\x7b\"status\":\"success\",\"result\":\"No mouse detected\",\"detected\":false\x7d"

/-- The upstream-error body text `demoParse` recognises. -/
def demoErrorBody : String :=
  "\x7b\"status\":\"error\",\"error\":\"camera busy\"\x7d"

/-! ## Helper lemmas about the association-list object model -/

theorem find?_append_lemma {α} (q : α → Bool) (l₁ l₂ : List α) :
    (l₁ ++ l₂).find? q = ((l₁.find? q).or (l₂.find? q)) := by
  induction l₁ with
  | nil => simp
  | cons a t ih =>
      by_cases hq : q a
      · simp [List.find?_cons_of_pos, hq]
      · simp only [List.cons_append]
        rw [List.find?_cons_of_neg _ (by simp [hq]), List.find?_cons_of_neg _ (by simp [hq]), ih]

theorem find?_map_update_self (st : TrapStates) (k v : String)
    (h : st.any (fun p => p.1 = k) = true) :
    (st.map (fun p => if p.1 = k then (k, v) else p)).find? (fun p => p.1 = k) = some (k, v) := by
  induction st with
  | nil => simp at h
  | cons a t ih =>
      by_cases hk : a.1 = k
      · simp [hk, List.find?_cons_of_pos]
      · simp only [List.any_cons, Bool.or_eq_true, decide_eq_true_eq] at h
        rcases h with h | h
        · exact absurd h hk
        · simp only [List.map_cons, if_neg hk]
          rw [List.find?_cons_of_neg _ (by simp [hk])]
          exact ih h

theorem find?_map_update_other (st : TrapStates) (k v r : String) (hr : r ≠ k) :
    (st.map (fun p => if p.1 = k then (k, v) else p)).find? (fun p => p.1 = r) =
      st.find? (fun p => p.1 = r) := by
  induction st with
  | nil => simp
  | cons a t ih =>
      by_cases hk : a.1 = k
      · have hra : ¬ a.1 = r := by rw [hk]; exact fun h => hr h.symm
        simp only [List.map_cons, if_pos hk]
        rw [List.find?_cons_of_neg _ (by simpa using fun h => hr h.symm),
          List.find?_cons_of_neg _ (by simpa using hra)]
        exact ih
      · simp only [List.map_cons, if_neg hk]
        by_cases hra : a.1 = r
        · rw [List.find?_cons_of_pos _ (by simpa using hra),
            List.find?_cons_of_pos _ (by simpa using hra)]
        · rw [List.find?_cons_of_neg _ (by simpa using hra),
            List.find?_cons_of_neg _ (by simpa using hra)]
          exact ih

theorem any_eq_false_find?_none (st : TrapStates) (k : String)
    (h : st.any (fun p => p.1 = k) = false) :
    st.find? (fun p => p.1 = k) = none := by
  induction st with
  | nil => simp
  | cons a t ih =>
      simp only [List.any_cons, Bool.or_eq_false_iff, decide_eq_false_iff_not] at h
      rw [List.find?_cons_of_neg _ (by simpa using h.1)]
      exact ih h.2

/-- Reading back the key just written always yields the written value. -/
theorem lookupState_setKey_self (st : TrapStates) (k v : String) :
    lookupState (setKey st k v) k = some v := by
  unfold setKey lookupState
  by_cases h : st.any (fun p => p.1 = k)
  · rw [if_pos h, find?_map_update_self st k v h]
    rfl
  · rw [if_neg h, find?_append_lemma,
      any_eq_false_find?_none st k (Bool.eq_false_iff.mpr h)]
    simp

/-- Writing one key leaves every other key's value unchanged. -/
theorem lookupState_setKey_other (st : TrapStates) (k v r : String) (hr : r ≠ k) :
    lookupState (setKey st k v) r = lookupState st r := by
  unfold setKey lookupState
  by_cases h : st.any (fun p => p.1 = k)
  · rw [if_pos h, find?_map_update_other st k v r hr]
  · rw [if_neg h, find?_append_lemma]
    have hkr : ¬ (k = r) := fun hkr => hr hkr.symm
    have hnone : ([(k, v)].find? (fun p => p.1 = r)) = none := by
      simp [List.find?, hkr]
    rw [hnone]
    cases st.find? (fun p => p.1 = r) <;> rfl

/-- Writing a key that is already present preserves the key list. -/
theorem keys_setKey_mem (st : TrapStates) (k v : String)
    (h : st.any (fun p => p.1 = k) = true) :
    (setKey st k v).map Prod.fst = st.map Prod.fst := by
  unfold setKey
  rw [if_pos h, List.map_map]
  apply List.map_congr_left
  intro p _
  simp only [Function.comp_apply]
  by_cases hk : p.1 = k
  · rw [if_pos hk]
    exact hk.symm
  · rw [if_neg hk]

/-- Writing a fresh key appends it. -/
theorem setKey_not_mem (st : TrapStates) (k v : String)
    (h : st.any (fun p => p.1 = k) = false) :
    setKey st k v = st ++ [(k, v)] := by
  unfold setKey
  rw [if_neg (by simp [h])]

/-- Key membership in the object read out of the `any` test. -/
theorem any_iff_mem_keys (st : TrapStates) (k : String) :
    st.any (fun p => p.1 = k) = true ↔ k ∈ st.map Prod.fst := by
  simp only [List.any_eq_true, decide_eq_true_eq, List.mem_map]

/-- Clicking a room that is present in the object preserves the key list. -/
theorem keys_handleTrapClick_mem (st : TrapStates) (room : String)
    (h : room ∈ st.map Prod.fst) :
    (handleTrapClick st room).map Prod.fst = st.map Prod.fst :=
  keys_setKey_mem st room _ ((any_iff_mem_keys st room).mpr h)

/-- Writes of a two-valued status preserve two-valuedness of the store. -/
theorem twoValued_setKey (st : TrapStates) (k v : String)
    (hv : v = "inactive" ∨ v = "active")
    (h : ∀ p ∈ st, p.2 = "inactive" ∨ p.2 = "active") :
    ∀ p ∈ setKey st k v, p.2 = "inactive" ∨ p.2 = "active" := by
  unfold setKey
  by_cases ha : st.any (fun p => p.1 = k)
  · rw [if_pos ha]
    intro p hp
    rcases List.mem_map.mp hp with ⟨q, hq, rfl⟩
    by_cases hk : q.1 = k
    · rw [if_pos hk]
      exact hv
    · rw [if_neg hk]
      exact h q hq
  · rw [if_neg ha]
    intro p hp
    rcases List.mem_append.mp hp with hp | hp
    · exact h p hp
    · rw [List.mem_singleton.mp hp]
      exact hv

/-- The status the click handler writes is always two-valued. -/
theorem twoValued_handleTrapClick (st : TrapStates) (room : String)
    (h : ∀ p ∈ st, p.2 = "inactive" ∨ p.2 = "active") :
    ∀ p ∈ handleTrapClick st room, p.2 = "inactive" ∨ p.2 = "active" := by
  unfold handleTrapClick
  apply twoValued_setKey _ _ _ _ h
  cases lookupState st room with
  | none => exact Or.inl rfl
  | some s =>
      by_cases hs : s = "inactive"
      · exact Or.inr (by simp [nextBinaryStatus, hs])
      · exact Or.inl (by simp [nextBinaryStatus, hs])

/-- Folding `countStep` over a two-valued store adds exactly the store's
length to the accumulator's total. -/
theorem countStep_foldl_sum (st : TrapStates) :
    ∀ acc : Nat × Nat, (∀ p ∈ st, p.2 = "inactive" ∨ p.2 = "active") →
      (st.foldl countStep acc).1 + (st.foldl countStep acc).2 =
        acc.1 + acc.2 + st.length := by
  induction st with
  | nil => intro acc _; simp
  | cons a t ih =>
      intro acc h
      have ha := h a (List.mem_cons_self a t)
      have ht : ∀ p ∈ t, p.2 = "inactive" ∨ p.2 = "active" :=
        fun p hp => h p (List.mem_cons_of_mem a hp)
      simp only [List.foldl_cons, List.length_cons]
      rcases ha with ha | ha
      · have hstep : countStep acc a = (acc.1 + 1, acc.2) := by
          unfold countStep
          rw [if_pos ha]
        rw [hstep, ih _ ht]
        omega
      · have hstep : countStep acc a = (acc.1, acc.2 + 1) := by
          unfold countStep
          rw [if_neg (by rw [ha]; decide), if_pos ha]
        rw [hstep, ih _ ht]
        omega

/-- Unfolding one click from a click sequence. -/
theorem applyClicks_cons (st : TrapStates) (r : String) (rs : List String) :
    applyClicks st (r :: rs) = applyClicks (handleTrapClick st r) rs := rfl

/-- Along any click sequence touching only keys of the store, the key list
is preserved and the store stays two-valued. -/
theorem applyClicks_inv (rooms : List String) :
    ∀ st : TrapStates,
      (∀ r ∈ rooms, r ∈ st.map Prod.fst) →
      (∀ p ∈ st, p.2 = "inactive" ∨ p.2 = "active") →
      (applyClicks st rooms).map Prod.fst = st.map Prod.fst ∧
      (∀ p ∈ applyClicks st rooms, p.2 = "inactive" ∨ p.2 = "active") := by
  induction rooms with
  | nil => intro st _ h2; exact ⟨rfl, h2⟩
  | cons r rs ih =>
      intro st hr h2
      have hrm : r ∈ st.map Prod.fst := hr r (List.mem_cons_self r rs)
      have hkeys := keys_handleTrapClick_mem st r hrm
      have h2m := twoValued_handleTrapClick st r h2
      have hr2 : ∀ x ∈ rs, x ∈ (handleTrapClick st r).map Prod.fst := by
        intro x hx
        rw [hkeys]
        exact hr x (List.mem_cons_of_mem r hx)
      obtain ⟨ih1, ih2⟩ := ih (handleTrapClick st r) hr2 h2m
      rw [applyClicks_cons]
      exact ⟨ih1.trans hkeys, ih2⟩

/-- A needle matches at its own head. -/
theorem leadMatches_refl (l : List Char) : leadMatches l l = true := by
  induction l with
  | nil => rfl
  | cons a t ih => simp [leadMatches, ih]

/-- A needle occurs in itself. -/
theorem occursIn_self (n : List Char) : occursIn n n = true := by
  cases n with
  | nil => rfl
  | cons a t => simp [occursIn, leadMatches_refl]

/-- A needle occurs in anything it is appended to. -/
theorem occursIn_prepend (a n : List Char) : occursIn n (a ++ n) = true := by
  induction a with
  | nil => simpa using occursIn_self n
  | cons x xs ih => simp [occursIn, ih]

/-- A string includes its own suffix. -/
theorem strIncludes_append (a b : String) : strIncludes (a ++ b) b = true := by
  unfold strIncludes
  rw [String.data_append]
  exact occursIn_prepend a.data b.data

/-! ## Claim theorems -/

/-- C2 (counterexample): clicking an id that is not in the registry does not
fail; it silently appends a `"garage" ↦ "inactive"` entry, so afterwards the
store's key set is strictly larger than the registry's id set. This refutes
the claim that such an operation fails with `UnknownTrapError` and never
creates an entry. -/
theorem click_unknown_id_creates_entry :
    ("garage" ∉ traps.map Trap.id) ∧
    handleTrapClick initialTrapStates "garage" =
      initialTrapStates ++ [("garage", "inactive")] ∧
    lookupState (handleTrapClick initialTrapStates "garage") "garage" = some "inactive" ∧
    (handleTrapClick initialTrapStates "garage").map Prod.fst ≠ traps.map Trap.id := by
  refine ⟨by decide, by decide, by decide, by decide⟩

/-- C2 (amended): `handleTrapClick` on an id absent from the store raises no
error and silently inserts that id with status `"inactive"` (the `undefined`
read compares unequal to `'inactive'`, so the toggle writes `'inactive'`);
a click on an id already present leaves the key set unchanged. -/
theorem click_unknown_id_behavior :
    (∀ st : TrapStates, ∀ room : String,
        st.any (fun p => p.1 = room) = false →
        handleTrapClick st room = st ++ [(room, "inactive")]) ∧
    (∀ st : TrapStates, ∀ room : String,
        room ∈ st.map Prod.fst →
        (handleTrapClick st room).map Prod.fst = st.map Prod.fst) := by
  constructor
  · intro st room h
    have hl : lookupState st room = none := by
      unfold lookupState
      rw [any_eq_false_find?_none st room h]
      rfl
    unfold handleTrapClick
    rw [hl]
    exact setKey_not_mem st room "inactive" h
  · intro st room h
    exact keys_handleTrapClick_mem st room h

/-- Witness for C2 (amended) at concrete inputs. -/
theorem click_unknown_id_behavior_witness :
    handleTrapClick initialTrapStates "attic" = initialTrapStates ++ [("attic", "inactive")] ∧
    (handleTrapClick initialTrapStates "kitchen").map Prod.fst =
      initialTrapStates.map Prod.fst :=
  ⟨click_unknown_id_behavior.1 initialTrapStates "attic" (by decide),
   click_unknown_id_behavior.2 initialTrapStates "kitchen" (by decide)⟩

/-- C4: the click transition on the two-value scheme is the pure toggle
`next(inactive) = active`, `next(active) = inactive`, applied only to the
clicked entry; and the concrete kitchen/bedroom scenario behaves as stated,
with `counts = (inactive 1, active 1)` after the first click. -/
theorem click_toggle_spec :
    (∀ st : TrapStates, ∀ room : String,
        lookupState (handleTrapClick st room) room =
          some (match lookupState st room with
                | some s => nextBinaryStatus s
                | none => "inactive")) ∧
    (∀ st : TrapStates, ∀ room r : String, r ≠ room →
        lookupState (handleTrapClick st room) r = lookupState st r) ∧
    nextBinaryStatus "inactive" = "active" ∧
    nextBinaryStatus "active" = "inactive" ∧
    handleTrapClick [("kitchen", "inactive"), ("bedroom", "inactive")] "kitchen" =
      [("kitchen", "active"), ("bedroom", "inactive")] ∧
    getStatusCounts [("kitchen", "active"), ("bedroom", "inactive")] = (1, 1) ∧
    handleTrapClick (handleTrapClick [("kitchen", "inactive"), ("bedroom", "inactive")] "kitchen")
        "kitchen" =
      [("kitchen", "inactive"), ("bedroom", "inactive")] := by
  refine ⟨?_, ?_, by decide, by decide, by decide, by decide, by decide⟩
  · intro st room
    unfold handleTrapClick
    exact lookupState_setKey_self st room _
  · intro st room r hr
    unfold handleTrapClick
    exact lookupState_setKey_other st room _ r hr

/-- Witness for C4 at concrete inputs. -/
theorem click_toggle_spec_witness :
    lookupState (handleTrapClick initialTrapStates "kitchen") "bedroom" =
      lookupState initialTrapStates "bedroom" :=
  click_toggle_spec.2.1 initialTrapStates "kitchen" "bedroom" (by decide)

/-- C8: after any finite sequence of clicks on registered trap ids starting
from the initialized store, the status tallies sum to the registry size. -/
theorem counts_sum_after_clicks (rooms : List String)
    (h : ∀ r ∈ rooms, r ∈ initialTrapStates.map Prod.fst) :
    (getStatusCounts (applyClicks initialTrapStates rooms)).1 +
      (getStatusCounts (applyClicks initialTrapStates rooms)).2 = traps.length := by
  have h2 : ∀ p ∈ initialTrapStates, p.2 = "inactive" ∨ p.2 = "active" := by decide
  obtain ⟨hk, h2m⟩ := applyClicks_inv rooms initialTrapStates h h2
  have hlen : (applyClicks initialTrapStates rooms).length = initialTrapStates.length := by
    have hmap := congrArg List.length hk
    simpa using hmap
  unfold getStatusCounts
  rw [countStep_foldl_sum _ _ h2m, hlen]
  decide

/-- Witness for C8 at a concrete click sequence. -/
theorem counts_sum_after_clicks_witness :
    (getStatusCounts (applyClicks initialTrapStates ["kitchen", "bedroom", "kitchen"])).1 +
      (getStatusCounts (applyClicks initialTrapStates ["kitchen", "bedroom", "kitchen"])).2 =
      traps.length :=
  counts_sum_after_clicks ["kitchen", "bedroom", "kitchen"] (by decide)

/-- C9: the four-value transition returns to its start after four steps on
every status of the scheme, and the two-value transition after two steps. -/
theorem transition_cyclic :
    (∀ s, s ∈ colors → nextColor^[4] s = s) ∧
    (∀ s, s ∈ ["inactive", "active"] → nextBinaryStatus^[2] s = s) := by
  constructor
  · intro s hs
    fin_cases hs <;> decide
  · intro s hs
    fin_cases hs <;> decide

/-- Witness for C9 at concrete statuses. -/
theorem transition_cyclic_witness :
    nextColor^[4] "yellow" = "yellow" ∧ nextBinaryStatus^[2] "active" = "active" :=
  ⟨transition_cyclic.1 "yellow" (by decide), transition_cyclic.2 "active" (by decide)⟩

/-- C1: the detect relay skips a port on a thrown fetch error of any kind, on
an empty/whitespace body and on an unparseable body; a parseable non-empty
response is terminal even when it signals an upstream error (no later port is
attempted); and in the spec's scenario — 5001 and 5000 refuse, 5002 answers a
well-formed success body — the relay returns the 5002 payload having attempted
exactly ports 5001, 5000, 5002 (never 8000). -/
theorem detect_port_trial_policy :
    (∀ parse : String → Option JsValue, ∀ e : JsError,
        detectTryPort parse (.failure e) = none) ∧
    (∀ parse : String → Option JsValue, ∀ r : HttpResponse,
        (strTrim r.body).length = 0 → detectTryPort parse (.success r) = none) ∧
    (∀ parse : String → Option JsValue, ∀ r : HttpResponse,
        (strTrim r.body).length ≠ 0 → parse r.body = none →
        detectTryPort parse (.success r) = none) ∧
    (∀ parse : String → Option JsValue, ∀ oracle : Nat → FetchOutcome,
      ∀ (r : HttpResponse) (d : JsValue),
        oracle 5001 = .success r → (strTrim r.body).length ≠ 0 →
        parse r.body = some d → r.ok = false →
        detectPOST parse oracle =
          ⟨.obj [("error", jsOr (d.getField "error") (.str "Detection failed")),
                 ("status", jsOr (d.getField "status") (.str "error"))], r.status⟩ ∧
        detectAttempts parse oracle = [5001]) ∧
    (∀ parse : String → Option JsValue, ∀ oracle : Nat → FetchOutcome,
      ∀ (e₁ e₂ : JsError) (r : HttpResponse) (d : JsValue),
        oracle 5001 = .failure e₁ → oracle 5000 = .failure e₂ →
        oracle 5002 = .success r → r.ok = true → (strTrim r.body).length ≠ 0 →
        parse r.body = some d →
        detectPOST parse oracle = ⟨d, 200⟩ ∧
        detectAttempts parse oracle = [5001, 5000, 5002]) := by
  refine ⟨?_, ?_, ?_, ?_, ?_⟩
  · intro parse e
    simp [detectTryPort]
  · intro parse r h
    simp [detectTryPort, h]
  · intro parse r h hp
    simp [detectTryPort, h, hp]
  · intro parse oracle r d h1 hne hp hok
    have ht : detectTryPort parse (oracle 5001) =
        some ⟨.obj [("error", jsOr (d.getField "error") (.str "Detection failed")),
                    ("status", jsOr (d.getField "status") (.str "error"))], r.status⟩ := by
      rw [h1]
      simp [detectTryPort, hne, hp, hok]
    constructor
    · simp [detectPOST, detectPorts, detectLoop, ht]
    · simp [detectAttempts, detectPorts, detectLoop, ht]
  · intro parse oracle e₁ e₂ r d h1 h2 h3 hok hne hp
    have t1 : detectTryPort parse (oracle 5001) = none := by
      rw [h1]; simp [detectTryPort]
    have t2 : detectTryPort parse (oracle 5000) = none := by
      rw [h2]; simp [detectTryPort]
    have t3 : detectTryPort parse (oracle 5002) = some ⟨d, 200⟩ := by
      rw [h3]; simp [detectTryPort, hne, hp, hok]
    constructor
    · simp [detectPOST, detectPorts, detectLoop, t1, t2, t3]
    · simp [detectAttempts, detectPorts, detectLoop, t1, t2, t3]

/-- Witness for C1 at a concrete oracle: 5001/5000 refuse connection,
5002 answers the demo success body, 8000 would also answer but is never
reached. -/
theorem detect_port_trial_policy_witness :
    detectPOST demoParse
        (fun p => if p = 5002 then .success ⟨true, 200, demoSuccessBody⟩
                  else .failure fetchFailedError) =
      ⟨.obj [("status", .str "success"), ("result", .str "No mouse detected"),
             ("detected", .bool false)], 200⟩ ∧
    detectAttempts demoParse
        (fun p => if p = 5002 then .success ⟨true, 200, demoSuccessBody⟩
                  else .failure fetchFailedError) =
      [5001, 5000, 5002] :=
  detect_port_trial_policy.2.2.2.2 demoParse
    (fun p => if p = 5002 then .success ⟨true, 200, demoSuccessBody⟩
              else .failure fetchFailedError)
    fetchFailedError fetchFailedError ⟨true, 200, demoSuccessBody⟩
    (.obj [("status", .str "success"), ("result", .str "No mouse detected"),
           ("detected", .bool false)])
    rfl rfl rfl rfl (by decide) rfl

/-- C3: when every candidate port is exhausted without a usable response, the
relay returns exactly the one normalized failure — status field `'error'`,
HTTP 503 — whose message mentions every attempted port, after attempting all
four ports; `detectPOST` is a total function, so no fault escapes. -/
theorem detect_all_ports_exhausted
    (parse : String → Option JsValue) (oracle : Nat → FetchOutcome)
    (h : ∀ p ∈ detectPorts, detectTryPort parse (oracle p) = none) :
    detectPOST parse oracle =
      ⟨.obj [("error", .str detectFailMsg), ("status", .str "error")], 503⟩ ∧
    detectAttempts parse oracle = detectPorts ∧
    (∀ p ∈ detectPorts, strIncludes detectFailMsg (toString p) = true) := by
  have h1 := h 5001 (by decide)
  have h2 := h 5000 (by decide)
  have h3 := h 5002 (by decide)
  have h4 := h 8000 (by decide)
  refine ⟨?_, ?_, by decide⟩
  · simp [detectPOST, detectPorts, detectLoop, h1, h2, h3, h4]
  · simp [detectAttempts, detectPorts, detectLoop, h1, h2, h3, h4]

/-- Witness for C3 at a concrete oracle refusing every connection. -/
theorem detect_all_ports_exhausted_witness :
    detectPOST demoParse (fun _ => .failure fetchFailedError) =
      ⟨.obj [("error", .str detectFailMsg), ("status", .str "error")], 503⟩ ∧
    detectAttempts demoParse (fun _ => .failure fetchFailedError) = detectPorts ∧
    (∀ p ∈ detectPorts, strIncludes detectFailMsg (toString p) = true) :=
  detect_all_ports_exhausted demoParse (fun _ => .failure fetchFailedError)
    (fun p _ => by simp [detectTryPort])

/-- C6: the health check always answers in one of the normalized shapes —
an error reply (`status:'error'`, `running:false`, some message, HTTP 503) or
the ok reply (`status:'ok'`, `running:true`, payload under `detector`,
HTTP 200). A connection failure gives the fixed explanatory message; an empty
body gives the empty-body message, which differs from the connection-refused
message; an unparseable body gives a diagnostic message that includes a
100-character snippet of the raw body; a well-formed body gives the ok reply
with the decoded payload attached. -/
theorem health_normalized_shapes :
    (∀ parse : String → Option JsValue, ∀ o : FetchOutcome,
        (∃ m, healthGET parse o = healthErrorReply m) ∨
        (∃ d, healthGET parse o = healthOkReply d)) ∧
    (∀ parse : String → Option JsValue, ∀ e : JsError, isHealthConnFailure e = true →
        healthGET parse (.failure e) = healthErrorReply healthConnRefusedMsg) ∧
    (∀ parse : String → Option JsValue, ∀ r : HttpResponse, (strTrim r.body).length = 0 →
        healthGET parse (.success r) = healthErrorReply healthEmptyMsg) ∧
    healthEmptyMsg ≠ healthConnRefusedMsg ∧
    (∀ parse : String → Option JsValue, ∀ r : HttpResponse,
        (strTrim r.body).length ≠ 0 → parse r.body = none →
        healthGET parse (.success r) =
          healthErrorReply ("Invalid response: " ++ strTake r.body 100) ∧
        strIncludes ("Invalid response: " ++ strTake r.body 100) (strTake r.body 100) = true) ∧
    (∀ parse : String → Option JsValue, ∀ (r : HttpResponse) (d : JsValue),
        (strTrim r.body).length ≠ 0 → parse r.body = some d →
        healthGET parse (.success r) = healthOkReply d) := by
  refine ⟨?_, ?_, ?_, by decide, ?_, ?_⟩
  · intro parse o
    cases o with
    | failure e =>
        by_cases h : isHealthConnFailure e
        · exact Or.inl ⟨healthConnRefusedMsg, by simp [healthGET, h]⟩
        · exact Or.inl ⟨strOr e.message "Failed to connect to detector service",
            by simp [healthGET, h]⟩
    | success r =>
        by_cases h : (strTrim r.body).length = 0
        · exact Or.inl ⟨healthEmptyMsg, by simp [healthGET, h]⟩
        · cases hp : parse r.body with
          | none =>
              exact Or.inl ⟨"Invalid response: " ++ strTake r.body 100,
                by simp [healthGET, h, hp]⟩
          | some d => exact Or.inr ⟨d, by simp [healthGET, h, hp]⟩
  · intro parse e h
    simp [healthGET, h]
  · intro parse r h
    simp [healthGET, h]
  · intro parse r h hp
    exact ⟨by simp [healthGET, h, hp], strIncludes_append "Invalid response: " (strTake r.body 100)⟩
  · intro parse r d h hp
    simp [healthGET, h, hp]

/-- Witness for C6 at concrete outcomes. -/
theorem health_normalized_shapes_witness :
    healthGET demoParse (.failure fetchFailedError) = healthErrorReply healthConnRefusedMsg ∧
    healthGET demoParse (.success ⟨true, 200, ""⟩) = healthErrorReply healthEmptyMsg ∧
    (healthGET demoParse (.success ⟨true, 200, "oops"⟩) =
        healthErrorReply ("Invalid response: " ++ strTake "oops" 100) ∧
      strIncludes ("Invalid response: " ++ strTake "oops" 100) (strTake "oops" 100) = true) ∧
    healthGET demoParse (.success ⟨true, 200, demoSuccessBody⟩) =
      healthOkReply (.obj [("status", .str "success"), ("result", .str "No mouse detected"),
                           ("detected", .bool false)]) :=
  ⟨health_normalized_shapes.2.1 demoParse fetchFailedError (by decide),
   health_normalized_shapes.2.2.1 demoParse ⟨true, 200, ""⟩ (by decide),
   health_normalized_shapes.2.2.2.2.1 demoParse ⟨true, 200, "oops"⟩ (by decide) rfl,
   health_normalized_shapes.2.2.2.2.2 demoParse ⟨true, 200, demoSuccessBody⟩ _ (by decide) rfl⟩

/-- C7 (counterexample): an aborted (timed-out) fetch is not mapped by the
health check to the same normalized result as a connection failure — the
abort error does not satisfy the connection-failure test, so the reply
carries the abort error's own message, not the fixed connection-refused
message. -/
theorem timeout_health_reply_differs :
    healthGET (fun _ => none) (.failure abortedError) =
      healthErrorReply "This operation was aborted" ∧
    healthGET (fun _ => none) (.failure abortedError) ≠
      healthErrorReply healthConnRefusedMsg := by
  refine ⟨rfl, ?_⟩
  intro h
  have hmsg : some (JsValue.str "This operation was aborted") =
      some (JsValue.str healthConnRefusedMsg) :=
    congrArg (fun rep => rep.body.getField "message") h
  injection hmsg with hmsg2
  injection hmsg2 with hmsg3
  exact absurd hmsg3 (by decide)

/-- C7 (amended): a timed-out (aborted) outbound call is treated by the
detect relay as a try-next-port signal, and by the health check as a
normalized failure of the same error shape as a connection failure
(`status:'error'`, `running:false`, HTTP 503) — but carrying the abort
error's own message rather than the fixed connection-refused message. -/
theorem timeout_treated_as_failure :
    (∀ parse : String → Option JsValue,
        detectTryPort parse (.failure abortedError) = none) ∧
    (∀ parse : String → Option JsValue, ∀ oracle : Nat → FetchOutcome,
      ∀ (p : Nat) (rest : List Nat),
        oracle p = .failure abortedError →
        detectLoop parse oracle (p :: rest) =
          ((detectLoop parse oracle rest).1, p :: (detectLoop parse oracle rest).2)) ∧
    (∀ parse : String → Option JsValue,
        healthGET parse (.failure abortedError) =
          healthErrorReply abortedError.message) := by
  refine ⟨?_, ?_, ?_⟩
  · intro parse
    simp [detectTryPort]
  · intro parse oracle p rest h
    rw [show detectLoop parse oracle (p :: rest) =
        (match detectTryPort parse (oracle p) with
         | some reply => (some reply, [p])
         | none =>
             let (res, tr) := detectLoop parse oracle rest
             (res, p :: tr)) from rfl, h]
    simp [detectTryPort]
  · intro parse
    simp [healthGET, isHealthConnFailure, abortedError]
    rfl

/-- Witness for C7 (amended) at a concrete oracle that times out on 5001. -/
theorem timeout_treated_as_failure_witness :
    detectLoop demoParse (fun _ => .failure abortedError) (5001 :: [5000]) =
      ((detectLoop demoParse (fun _ => .failure abortedError) [5000]).1,
        5001 :: (detectLoop demoParse (fun _ => .failure abortedError) [5000]).2) :=
  timeout_treated_as_failure.2.1 demoParse (fun _ => .failure abortedError) 5001 [5000] rfl

/-- C5: every run of the detection trigger first enters the in-flight state
with the previous result cleared, and on every outcome settles with the busy
flag off — storing the success payload on a well-formed success response, an
error message derived from the upstream error field on an error response, and
the fixed connection-failure message on a network/parse failure. No outcome
leaves the client in-flight. -/
theorem trigger_detection_settles :
    (∀ o : TriggerOutcome, (triggerDetection o).1 = ⟨true, none⟩) ∧
    (∀ o : TriggerOutcome, ((triggerDetection o).2).isDetecting = false) ∧
    (triggerDetection .threw).2 =
      ⟨false, some (.str "Error: Failed to connect to detector service")⟩ ∧
    (∀ data : JsValue, isStrEq (data.getField "status") "success" = true →
        (triggerDetection (.parsed data)).2 = ⟨false, data.getField "result"⟩) ∧
    (∀ data : JsValue, isStrEq (data.getField "status") "success" = false →
        (triggerDetection (.parsed data)).2 =
          ⟨false, some (.str ("Error: " ++
              jsDisplay (jsOr (data.getField "error") (.str "Unknown error"))))⟩) := by
  refine ⟨fun o => rfl, ?_, rfl, ?_, ?_⟩
  · intro o
    cases o with
    | threw => rfl
    | parsed data =>
        by_cases h : isStrEq (data.getField "status") "success" <;>
          simp [triggerDetection, triggerSettle, h]
  · intro data h
    simp [triggerDetection, triggerSettle, h]
  · intro data h
    simp [triggerDetection, triggerSettle, h]

/-- Witness for C5 at the demo success and error payloads. -/
theorem trigger_detection_settles_witness :
    (triggerDetection (.parsed (.obj [("status", .str "success"),
        ("result", .str "No mouse detected"), ("detected", .bool false)]))).2 =
      ⟨false, (JsValue.obj [("status", .str "success"),
        ("result", .str "No mouse detected"), ("detected", .bool false)]).getField "result"⟩ ∧
    (triggerDetection (.parsed (.obj [("status", .str "error"),
        ("error", .str "camera busy")]))).2 =
      ⟨false, some (.str ("Error: " ++
          jsDisplay (jsOr ((JsValue.obj [("status", .str "error"),
            ("error", .str "camera busy")]).getField "error") (.str "Unknown error"))))⟩ :=
  ⟨trigger_detection_settles.2.2.2.1 _ rfl,
   trigger_detection_settles.2.2.2.2 _ rfl⟩

/-- C10: a `POST` to the detection-status endpoint with an unparseable body
returns `{success:false, error:'Invalid request'}` with HTTP 400 and leaves
the slot untouched; a parseable body fully overwrites the slot — the result
does not depend on the previous slot value — with `detected` coerced to
`false` when absent or falsy, `room` defaulted to `'kitchen'` when absent or
falsy, and the timestamp taken from the server clock regardless of anything
in the request body. -/
theorem detection_post_contract :
    (∀ (st : DetectionState) (now : Int),
        detectionPOST st now none =
          (st, ⟨.obj [("success", .bool false), ("error", .str "Invalid request")], 400⟩)) ∧
    (∀ (st : DetectionState) (now : Int) (body : JsValue),
        ((detectionPOST st now (some body)).1).timestamp = now) ∧
    (∀ (st st₂ : DetectionState) (now : Int) (body : JsValue),
        (detectionPOST st now (some body)).1 = (detectionPOST st₂ now (some body)).1) ∧
    (∀ (st : DetectionState) (now : Int) (body : JsValue),
        body.getField "detected" = none →
        ((detectionPOST st now (some body)).1).detected = .bool false) ∧
    (∀ (st : DetectionState) (now : Int) (body : JsValue) (v : JsValue),
        body.getField "detected" = some v → truthy v = false →
        ((detectionPOST st now (some body)).1).detected = .bool false) ∧
    (∀ (st : DetectionState) (now : Int) (body : JsValue),
        body.getField "room" = none →
        ((detectionPOST st now (some body)).1).room = .str "kitchen") ∧
    (∀ (st : DetectionState) (now : Int) (body : JsValue) (v : JsValue),
        body.getField "room" = some v → truthy v = false →
        ((detectionPOST st now (some body)).1).room = .str "kitchen") := by
  refine ⟨fun st now => rfl, fun st now body => rfl, fun st st₂ now body => rfl, ?_, ?_, ?_, ?_⟩
  · intro st now body h
    simp [detectionPOST, jsOr, h]
  · intro st now body v h hv
    simp [detectionPOST, jsOr, h, hv]
  · intro st now body h
    simp [detectionPOST, jsOr, h]
  · intro st now body v h hv
    simp [detectionPOST, jsOr, h, hv]

/-- Witness for C10 at a concrete body carrying falsy `detected`, no `room`,
and a client-supplied `timestamp` that is ignored. -/
theorem detection_post_contract_witness :
    ((detectionPOST (initialDetectionState 0) 42
        (some (.obj [("detected", .bool false), ("timestamp", .num 7)]))).1).timestamp = 42 ∧
    ((detectionPOST (initialDetectionState 0) 42
        (some (.obj [("detected", .bool false), ("timestamp", .num 7)]))).1).detected =
      .bool false ∧
    ((detectionPOST (initialDetectionState 0) 42
        (some (.obj [("detected", .bool false), ("timestamp", .num 7)]))).1).room =
      .str "kitchen" :=
  ⟨detection_post_contract.2.1 (initialDetectionState 0) 42 _,
   detection_post_contract.2.2.2.2.1 (initialDetectionState 0) 42 _ (.bool false) rfl rfl,
   detection_post_contract.2.2.2.2.2.1 (initialDetectionState 0) 42 _ rfl⟩

end EthicalMousetrap
